import Mathlib

/-!
Shallow embedding of the homebridge-fordpass platform core (src/index.ts):
the accessory reconciliation engine (`addVehicles`), the status-poll pass
(`updateVehicles`), the per-characteristic GET/SET handlers attached in
`configureAccessory`, and the constructor's configuration check.

External collaborators (the FordPass connection and the homebridge host)
are modelled as oracle parameters, following the interface the code uses:
a status fetch yields `Option StatusSnapshot` (absent on failure), a
command issue yields a success flag, and the host's `hap.uuid.generate`
is an arbitrary deterministic function `String → String`.
-/

namespace FordPass

/-- The closed command enumeration from models/vehicle-info (`Command`). -/
inductive Command : Type
  | LOCK
  | UNLOCK
  | START
  | STOP
  deriving DecidableEq, Repr

/-- One status snapshot as the index.ts code consumes it:
`status.lockStatus.value` is a string compared against "LOCKED", and
`status.remoteStartStatus.value` is a non-negative number that may be
absent (the code guards it with `|| 0`). -/
structure StatusSnapshot : Type where
  lockStatus : String
  remoteStartStatus : Option Nat
  deriving DecidableEq, Repr

/-- A vehicle handle: identity plus the cached last-known snapshot
(`vehicle.info`). Modelled from the spec: the Vehicle class file is not in
src/; per the spec the handle holds {name, vin, lastKnownStatus: optional
StatusSnapshot}, and the snapshot field is mutated only by the poll loop
(`vehicle.status()` is a pure fetch that does not write `info`). -/
structure Vehicle : Type where
  name : String
  vin : String
  info : Option StatusSnapshot
  deriving DecidableEq, Repr

/-- A homebridge `CharacteristicValue`: boolean, number or string; this is
what flows through SET handlers and `updateCharacteristic`. JavaScript's
strict equality `value === 0` holds exactly for the numeric zero. -/
inductive CharValue : Type
  | b (x : Bool)
  | n (x : Int)
  | s (x : String)
  deriving DecidableEq, Repr

/-- A registered platform accessory, with its context (name, vin) and the
characteristic store of its two services (LockMechanism: current/target
state, Switch: on). -/
structure Accessory : Type where
  UUID : String
  displayName : String
  contextName : String
  contextVin : String
  lockCurrentState : CharValue
  lockTargetState : CharValue
  switchOn : CharValue
  deriving DecidableEq, Repr

/-- The platform's two parallel registry collections
(`this.accessories`, `this.vehicles`). -/
structure PlatformState : Type where
  accessories : List Accessory
  vehicles : List Vehicle
  deriving DecidableEq, Repr

def emptyState : PlatformState := { accessories := [], vehicles := [] }

/-- The lock projection used on cached snapshots
(`vehicle.info?.lockStatus.value`, then `lockNumber = 1` exactly when it
is 'LOCKED'): 1 for a present LOCKED snapshot, 0 otherwise. -/
def lockProjection (info : Option StatusSnapshot) : Int :=
  if info.map (fun s => s.lockStatus) = some "LOCKED" then 1 else 0

/-- The engine projection (`vehicle.info?.remoteStartStatus.value || 0`,
then `started = engineStatus > 0`). -/
def engineProjection (info : Option StatusSnapshot) : Bool :=
  decide (0 < (info.bind (fun s => s.remoteStartStatus)).getD 0)

/-! ## Characteristic handlers (configureAccessory, lines 68-126) -/

/-- Observable outcome of the lock target-state SET handler. -/
structure LockSetResult : Type where
  issued : Command
  newLockCurrentState : CharValue
  callbackError : Bool
  deriving DecidableEq, Repr

/-- The lock target-state SET handler (index.ts lines 71-80): on
`value === 0` issue UNLOCK, otherwise LOCK; the command's outcome is
awaited but discarded; `LockCurrentState` is then set to the raw written
value and the callback is invoked with no error. `issue` is the
collaborator's `issueCommand`, returning a success flag (per the
interface contract commands report success/failure, they do not throw). -/
def lockSetHandler (value : CharValue) (issue : Command → Bool) : LockSetResult :=
  let cmd := if value = CharValue.n 0 then Command.UNLOCK else Command.LOCK
  let _ok := issue cmd
  { issued := cmd, newLockCurrentState := value, callbackError := false }

/-- Observable outcome of the switch (engine) SET handler. -/
structure SwitchSetResult : Type where
  issued : Command
  callbackError : Bool
  deriving DecidableEq, Repr

/-- The switch SET handler (index.ts lines 102-110): truthy value issues
START, falsy issues STOP; the command outcome is discarded and the
callback is invoked with no error. -/
def switchSetHandler (value : Bool) (issue : Command → Bool) : SwitchSetResult :=
  let cmd := if value then Command.START else Command.STOP
  let _ok := issue cmd
  { issued := cmd, callbackError := false }

/-- Observable outcome of a GET handler on the lock service: whether a
read error was surfaced, the value returned to the callback, and the
value pushed into `LockCurrentState` by `updateCharacteristic` (if any). -/
structure LockGetOutcome : Type where
  readError : Bool
  returned : Option Int
  pushedCurrentState : Option Int
  deriving DecidableEq, Repr

/-- The lock current-state GET handler (index.ts lines 81-97): fetch the
status; on absence surface a read error; otherwise map
`lockStatus === 'LOCKED'` to 1 else 0, push it into `LockCurrentState`
and return it. -/
def lockGetHandler (status : Option StatusSnapshot) : LockGetOutcome :=
  match status with
  | none => { readError := true, returned := none, pushedCurrentState := none }
  | some s =>
    let lockNumber : Int := if s.lockStatus = "LOCKED" then 1 else 0
    { readError := false, returned := some lockNumber, pushedCurrentState := some lockNumber }

/-- The full lock read: a fresh fetch keyed by the vehicle's vin feeds the
handler. -/
def lockRead (fetch : String → Option StatusSnapshot) (v : Vehicle) : LockGetOutcome :=
  lockGetHandler (fetch v.vin)

/-- The switch GET handler (index.ts lines 111-126): fetch the status
(`status`); on absence surface a read error. Otherwise the code reads
`vehicle.info?.remoteStartStatus.value || 0` — the CACHED snapshot, not
the one just fetched — and returns whether it is positive. -/
def switchGetHandler (info : Option StatusSnapshot) (status : Option StatusSnapshot) :
    Option Bool :=
  match status with
  | none => none
  | some _ => some (engineProjection info)

/-- The full switch read on a vehicle handle. -/
def switchRead (fetch : String → Option StatusSnapshot) (v : Vehicle) : Option Bool :=
  switchGetHandler v.info (fetch v.vin)

/-! ## configureAccessory registry effect (index.ts lines 51-130) -/

/-- `configureAccessory`: builds the vehicle handle from the accessory
context, sets the default characteristic values (lock current/target = 1,
switch = off), and appends to both registry collections. -/
def configureAccessory (st : PlatformState) (accessory : Accessory) : PlatformState :=
  let vehicle : Vehicle := { name := accessory.contextName, vin := accessory.contextVin, info := none }
  let accessory' : Accessory :=
    { accessory with
        lockCurrentState := CharValue.n 1
        lockTargetState := CharValue.n 1
        switchOn := CharValue.b false }
  { st with
      vehicles := st.vehicles ++ [vehicle]
      accessories := st.accessories ++ [accessory'] }

/-- The shape `configureAccessory` leaves a freshly created accessory in:
identity from the uuid and vin, plus the default characteristic values
(lock current/target = 1, switch = off). -/
def configuredAccessory (nm uuid vin : String) : Accessory :=
  { UUID := uuid, displayName := nm, contextName := nm, contextVin := vin,
    lockCurrentState := CharValue.n 1, lockTargetState := CharValue.n 1,
    switchOn := CharValue.b false }

/-! ## Reconciliation (addVehicles, index.ts lines 154-189) -/

/-- One entry of `config.vehicles`: {name, vin}. The code mutates
`vehicle.vin = vehicle.vin.toUpperCase()` in place; the embedding returns
the mutated list. -/
structure ConfigVehicle : Type where
  name : String
  vin : String
  deriving DecidableEq, Repr

/-- JavaScript's `String.prototype.toUpperCase` on the simple (ASCII VIN)
strings this plugin handles: upper-case every character. -/
def toUpperCase (s : String) : String := ⟨s.data.map Char.toUpper⟩

/-- The accessory as `new Accessory(vehicle.name, uuid)` plus the context
assignments create it, before `configureAccessory` sets characteristics. -/
def mkAccessory (nm uuid vin : String) : Accessory :=
  { UUID := uuid, displayName := nm, contextName := nm, contextVin := vin,
    lockCurrentState := CharValue.n 0, lockTargetState := CharValue.n 0,
    switchOn := CharValue.b false }

/-- The first forEach of `addVehicles` (lines 156-176): upper-case each
config vin in place, compute the uuid (`g` stands for the host's
deterministic `hap.uuid.generate`), and when no registered accessory has
that UUID, run `configureAccessory` and register it. Returns the mutated
config list, the entries actually added, and the new registry state. -/
def addAll (g : String → String) (st : PlatformState) :
    List ConfigVehicle → List ConfigVehicle × List ConfigVehicle × PlatformState
  | [] => ([], [], st)
  | cv :: rest =>
    let cv' : ConfigVehicle := { cv with vin := toUpperCase cv.vin }
    let uuid := g cv'.vin
    if (st.accessories.find? (fun x => x.UUID == uuid)).isSome then
      let r := addAll g st rest
      (cv' :: r.1, r.2.1, r.2.2)
    else
      let st1 := configureAccessory st (mkAccessory cv'.name uuid cv'.vin)
      let r := addAll g st1 rest
      (cv' :: r.1, cv' :: r.2.1, r.2.2)

/-- The second forEach of `addVehicles` (lines 179-188), with JavaScript
`forEach` + `splice` semantics: the loop index advances past the spot a
removal shifted into. An accessory whose context vin matches no config
vin is unregistered and spliced out of `accessories` at its index; the
code then calls `this.vehicles.slice(index, 1)`, which is NON-mutating,
so the vehicle handle list is returned unchanged. Returns (accessories,
vehicles, removed accessories). -/
def removeLoop (desiredVins : List String) (i : Nat) (accs : List Accessory)
    (vehs : List Vehicle) : List Accessory × List Vehicle × List Accessory :=
  if h : i < accs.length then
    let a := accs.get ⟨i, h⟩
    if desiredVins.contains a.contextVin then
      removeLoop desiredVins (i + 1) accs vehs
    else
      let r := removeLoop desiredVins (i + 1) (accs.eraseIdx i) vehs
      (r.1, r.2.1, a :: r.2.2)
  else
    (accs, vehs, [])
termination_by accs.length - i
decreasing_by
  · omega
  · have := List.length_eraseIdx (l := accs) (i := i)
    simp only [h, if_true] at this
    omega

/-- Result of one `addVehicles` reconciliation run. -/
structure ReconcileResult : Type where
  desired : List ConfigVehicle
  toAdd : List ConfigVehicle
  toRemove : List Accessory
  state : PlatformState
  deriving DecidableEq, Repr

/-- `addVehicles` (index.ts lines 154-189): the add pass over the config
list followed by the remove pass over the registered accessories, the
latter matching context vins against the (now upper-cased) config vins. -/
def addVehicles (g : String → String) (desired : List ConfigVehicle)
    (st : PlatformState) : ReconcileResult :=
  let r := addAll g st desired
  let rem := removeLoop (r.1.map (fun v => v.vin)) 0 r.2.2.accessories r.2.2.vehicles
  { desired := r.1, toAdd := r.2.1, toRemove := rem.2.2,
    state := { accessories := rem.1, vehicles := rem.2.1 } }

/-! ## Status-update pass (updateVehicles, index.ts lines 191-216) -/

/-- Update the first element of a list satisfying `p` (the semantics of
`this.accessories.find(...)` followed by mutation of the found object). -/
def updateFirst (p : Accessory → Bool) (f : Accessory → Accessory) :
    List Accessory → List Accessory
  | [] => []
  | a :: as => if p a then f a :: as else a :: updateFirst p f as

/-- One iteration of the `updateVehicles` forEach (lines 192-215):
`vehicle.info = await vehicle.status()` stores the fetch result
UNCONDITIONALLY (absence included); the lock and switch projections are
computed from that stored result and pushed into the accessory found by
the vin-derived uuid (`LockCurrentState`, `LockTargetState`, `On`). -/
def projectVehicle (g : String → String) (fetch : String → Option StatusSnapshot)
    (v : Vehicle) (accs : List Accessory) : Vehicle × List Accessory :=
  let info := fetch v.vin
  let lockNumber : Int := lockProjection info
  let started := engineProjection info
  let uuid := g v.vin
  ({ v with info := info },
   updateFirst (fun a => a.UUID == uuid)
     (fun a =>
       { a with
           lockCurrentState := CharValue.n lockNumber
           lockTargetState := CharValue.n lockNumber
           switchOn := CharValue.b started }) accs)

/-- The full status-update pass: every vehicle handle is processed in
order (the pass is a total function — nothing in it can raise). -/
def updateVehiclesAux (g : String → String) (fetch : String → Option StatusSnapshot) :
    List Vehicle → List Accessory → List Vehicle × List Accessory
  | [], accs => ([], accs)
  | v :: vs, accs =>
    let r := projectVehicle g fetch v accs
    let rest := updateVehiclesAux g fetch vs r.2
    (r.1 :: rest.1, rest.2)

/-- `updateVehicles` on the platform state. -/
def updateVehicles (g : String → String) (fetch : String → Option StatusSnapshot)
    (st : PlatformState) : PlatformState :=
  let r := updateVehiclesAux g fetch st.vehicles st.accessories
  { vehicles := r.1, accessories := r.2 }

/-! ## Constructor configuration check and bootstrap (lines 33-152) -/

/-- The configuration surface: `username`, `password` and `vehicles` may
be absent; a present string may still be empty (JavaScript falsy). -/
structure PlatformConfig : Type where
  username : Option String
  password : Option String
  vehicles : Option (List ConfigVehicle)
  deriving DecidableEq, Repr

/-- JavaScript falsiness of an optional string (`!config.username`):
absent or empty. -/
def falsyStr : Option String → Bool
  | none => true
  | some s => s = ""

/-- `!config.username || !config.password || !config.vehicles`
(index.ts line 43). An absent vehicles list is falsy; a present list is
an object and always truthy. -/
def configIncomplete (c : PlatformConfig) : Bool :=
  falsyStr c.username || falsyStr c.password || c.vehicles.isNone

/-- What the constructor observably does (lines 33-49): log an error
and/or register the launch listener. -/
structure ConstructorOutcome : Type where
  errorsLogged : Nat
  listenerRegistered : Bool
  deriving DecidableEq, Repr

/-- The `FordPassPlatform` constructor: with no config it silently
returns; with an incomplete config it logs one error and returns without
registering the DID_FINISH_LAUNCHING listener; otherwise it registers the
listener. -/
def platformConstructor (config : Option PlatformConfig) : ConstructorOutcome :=
  match config with
  | none => { errorsLogged := 0, listenerRegistered := false }
  | some c =>
    if configIncomplete c then
      { errorsLogged := 1, listenerRegistered := false }
    else
      { errorsLogged := 0, listenerRegistered := true }

/-- Observable outcome of a whole platform run up to the end of bootstrap. -/
structure RunOutcome : Type where
  errorsLogged : Nat
  state : PlatformState
  sessionLoopStarted : Bool
  pollLoopStarted : Bool
  deriving DecidableEq, Repr

/-- The platform's startup flow: the constructor check, then (only if the
launch listener was registered) `didFinishLaunching` (lines 132-152):
authenticate — `authOk` models the collaborator's
`establishSession -> success|failure` — and only on success start the
session-refresh interval, reconcile once, run one update pass, and start
the poll interval. -/
def runPlatform (g : String → String) (fetch : String → Option StatusSnapshot)
    (authOk : Bool) (config : Option PlatformConfig) : RunOutcome :=
  let ctor := platformConstructor config
  match config with
  | none => { errorsLogged := ctor.errorsLogged, state := emptyState,
              sessionLoopStarted := false, pollLoopStarted := false }
  | some c =>
    if ctor.listenerRegistered && authOk then
      let st1 := (addVehicles g (c.vehicles.getD []) emptyState).state
      let st2 := updateVehicles g fetch st1
      { errorsLogged := ctor.errorsLogged, state := st2,
        sessionLoopStarted := true, pollLoopStarted := true }
    else
      { errorsLogged := ctor.errorsLogged, state := emptyState,
        sessionLoopStarted := false, pollLoopStarted := false }

/-! ## Concrete fixtures for witnesses and counterexamples -/

/-- A snapshot that is LOCKED with remote-start level 3. -/
def lockedSnap : StatusSnapshot := { lockStatus := "LOCKED", remoteStartStatus := some 3 }

/-- An UNLOCKED snapshot with remote-start level 3. -/
def runningSnap : StatusSnapshot := { lockStatus := "UNLOCKED", remoteStartStatus := some 3 }

/-- A vehicle handle with a cached LOCKED snapshot. -/
def vehLocked : Vehicle := { name := "car", vin := "VINA", info := some lockedSnap }

/-- The registered accessory for `vehLocked`, as `configureAccessory`
leaves it. -/
def accLocked : Accessory :=
  { UUID := "VINA", displayName := "car", contextName := "car", contextVin := "VINA",
    lockCurrentState := CharValue.n 1, lockTargetState := CharValue.n 1,
    switchOn := CharValue.b false }

/-- A one-vehicle platform state. -/
def stOne : PlatformState := { accessories := [accLocked], vehicles := [vehLocked] }

/-- A fetch oracle that always fails. -/
def noFetch : String → Option StatusSnapshot := fun _ => none

/-- A fetch oracle that always returns `runningSnap`. -/
def runningFetch : String → Option StatusSnapshot := fun _ => some runningSnap

/-- A command oracle on which every command fails. -/
def failingIssue : Command → Bool := fun _ => false

/-- A fetch oracle that always returns `lockedSnap`. -/
def lockedFetch : String → Option StatusSnapshot := fun _ => some lockedSnap

/-- `accLocked` after a status-update pass whose fetch failed: the
projection defaults were pushed. -/
def clearedAcc : Accessory :=
  { accLocked with
      lockCurrentState := CharValue.n 0
      lockTargetState := CharValue.n 0
      switchOn := CharValue.b false }

/-- `accLocked` after a status-update pass that fetched `lockedSnap`. -/
def polledAcc : Accessory :=
  { accLocked with
      lockCurrentState := CharValue.n 1
      lockTargetState := CharValue.n 1
      switchOn := CharValue.b true }

end FordPass

namespace FordPass

/-! ## Helper lemmas -/

/-- Every element of `updateFirst p f l` is an original element or the
image under `f` of an original element satisfying `p`. -/
theorem mem_updateFirst (p : Accessory → Bool) (f : Accessory → Accessory)
    (l : List Accessory) (a : Accessory) (ha : a ∈ updateFirst p f l) :
    a ∈ l ∨ ∃ b, b ∈ l ∧ p b = true ∧ a = f b := by
  induction l with
  | nil => simp [updateFirst] at ha
  | cons x xs ih =>
    by_cases hp : p x
    · simp only [updateFirst, hp, if_true, List.mem_cons] at ha
      rcases ha with h | h
      · exact Or.inr ⟨x, List.mem_cons_self x xs, hp, h⟩
      · exact Or.inl (List.mem_cons_of_mem x h)
    · simp only [updateFirst, hp, if_false, Bool.false_eq_true, List.mem_cons] at ha
      rcases ha with h | h
      · exact Or.inl (h ▸ List.mem_cons_self x xs)
      · rcases ih h with h' | ⟨b, hb, hpb, hab⟩
        · exact Or.inl (List.mem_cons_of_mem x h')
        · exact Or.inr ⟨b, List.mem_cons_of_mem x hb, hpb, hab⟩

/-- The vehicle handles after a status-update pass carry exactly the
fetch results as their cached snapshots, in order. -/
theorem updateVehiclesAux_fst (g : String → String)
    (fetch : String → Option StatusSnapshot) :
    ∀ (vs : List Vehicle) (accs : List Accessory),
      ((updateVehiclesAux g fetch vs accs).1).map Vehicle.info =
        vs.map (fun v => fetch v.vin) := by
  intro vs
  induction vs with
  | nil => intro accs; rfl
  | cons v vs ih =>
    intro accs
    simp [updateVehiclesAux, projectVehicle, ih]

/-- Every accessory after a status-update pass is either untouched or the
result of pushing some processed vehicle's projections. -/
theorem mem_updateVehiclesAux (g : String → String)
    (fetch : String → Option StatusSnapshot) :
    ∀ (vs : List Vehicle) (accs : List Accessory) (a : Accessory),
      a ∈ (updateVehiclesAux g fetch vs accs).2 →
      a ∈ accs ∨ ∃ v, v ∈ vs ∧ a.UUID = g v.vin ∧
        a.lockCurrentState = CharValue.n (lockProjection (fetch v.vin)) ∧
        a.lockTargetState = CharValue.n (lockProjection (fetch v.vin)) ∧
        a.switchOn = CharValue.b (engineProjection (fetch v.vin)) := by
  intro vs
  induction vs with
  | nil =>
    intro accs a ha
    exact Or.inl (by simpa [updateVehiclesAux] using ha)
  | cons v vs ih =>
    intro accs a ha
    have ha' : a ∈ (updateVehiclesAux g fetch vs (projectVehicle g fetch v accs).2).2 := by
      simpa [updateVehiclesAux] using ha
    rcases ih _ a ha' with h | ⟨w, hw, rest⟩
    · have h2 : a ∈ updateFirst (fun b => b.UUID == g v.vin)
          (fun b =>
            { b with
                lockCurrentState := CharValue.n (lockProjection (fetch v.vin))
                lockTargetState := CharValue.n (lockProjection (fetch v.vin))
                switchOn := CharValue.b (engineProjection (fetch v.vin)) }) accs := by
        simpa [projectVehicle] using h
      rcases mem_updateFirst _ _ _ _ h2 with h3 | ⟨b, hb, hpb, hab⟩
      · exact Or.inl h3
      · refine Or.inr ⟨v, List.mem_cons_self _ _, ?_, ?_, ?_, ?_⟩
        · rw [hab]
          simpa using (beq_iff_eq.mp hpb : b.UUID = g v.vin)
        · rw [hab]
        · rw [hab]
        · rw [hab]
    · exact Or.inr ⟨w, List.mem_cons_of_mem _ hw, rest⟩

/-- `configureAccessory` on a fresh accessory appends its configured
form. -/
theorem configureAccessory_mk (st : PlatformState) (nm uuid vin : String) :
    (configureAccessory st (mkAccessory nm uuid vin)).accessories =
      st.accessories ++ [configuredAccessory nm uuid vin] := rfl

/-- The remove pass is the identity (and removes nothing) when every
registered accessory's context vin is among the desired vins. -/
theorem removeLoop_noop (desiredVins : List String) :
    ∀ (n i : Nat) (accs : List Accessory) (vehs : List Vehicle), accs.length - i ≤ n →
      (∀ a ∈ accs, desiredVins.contains a.contextVin = true) →
      removeLoop desiredVins i accs vehs = (accs, vehs, []) := by
  intro n
  induction n with
  | zero =>
    intro i accs vehs hle h
    rw [removeLoop]
    rw [dif_neg (by omega)]
  | succ n ih =>
    intro i accs vehs hle h
    by_cases hi : i < accs.length
    · have ha := h (accs.get ⟨i, hi⟩) (List.get_mem accs i hi)
      rw [removeLoop, dif_pos hi, if_pos ha]
      exact ih (i + 1) accs vehs (by omega) h
    · rw [removeLoop, dif_neg hi]

/-- The add pass returns the config list with vins upper-cased in place. -/
theorem addAll_fst (g : String → String) :
    ∀ (D : List ConfigVehicle) (st : PlatformState),
      (addAll g st D).1 = D.map (fun cv => { cv with vin := toUpperCase cv.vin }) := by
  intro D
  induction D with
  | nil => intro st; rfl
  | cons cv rest ih =>
    intro st
    simp only [addAll, List.map_cons]
    split <;> simp [ih]

/-- The add pass never removes a registered accessory. -/
theorem addAll_mem_mono (g : String → String) :
    ∀ (D : List ConfigVehicle) (st : PlatformState) (a : Accessory),
      a ∈ st.accessories → a ∈ (addAll g st D).2.2.accessories := by
  intro D
  induction D with
  | nil => intro st a ha; exact ha
  | cons cv rest ih =>
    intro st a ha
    simp only [addAll]
    split
    · exact ih st a ha
    · exact ih _ a (by simp [configureAccessory, ha])

/-- After the add pass, every desired entry has a registered accessory
carrying its vin-derived uuid. -/
theorem addAll_covers (g : String → String) :
    ∀ (D : List ConfigVehicle) (st : PlatformState) (cv : ConfigVehicle), cv ∈ D →
      ∃ a, a ∈ (addAll g st D).2.2.accessories ∧ a.UUID = g (toUpperCase cv.vin) := by
  intro D
  induction D with
  | nil => intro st cv h; cases h
  | cons cv0 rest ih =>
    intro st cv h
    rcases List.mem_cons.mp h with rfl | h'
    · simp only [addAll]
      split
      · next hf =>
        obtain ⟨a, hfind⟩ := Option.isSome_iff_exists.mp hf
        have hp : a.UUID = g (toUpperCase cv.vin) := by
          simpa using List.find?_some hfind
        exact ⟨a, addAll_mem_mono g rest st a (List.mem_of_find?_eq_some hfind), hp⟩
      · refine ⟨configuredAccessory cv.name (g (toUpperCase cv.vin)) (toUpperCase cv.vin),
          addAll_mem_mono g rest _ _ ?_, rfl⟩
        rw [configureAccessory_mk]
        exact List.mem_append_right _ (List.mem_singleton.mpr rfl)
    · simp only [addAll]
      split
      · exact ih st cv h'
      · exact ih _ cv h'

/-- Every accessory present after the add pass was registered before or
has an upper-cased desired vin as its context vin. -/
theorem addAll_new_vins (g : String → String) :
    ∀ (D : List ConfigVehicle) (st : PlatformState) (a : Accessory),
      a ∈ (addAll g st D).2.2.accessories →
      a ∈ st.accessories ∨ ∃ cv, cv ∈ D ∧ a.contextVin = toUpperCase cv.vin := by
  intro D
  induction D with
  | nil => intro st a ha; exact Or.inl ha
  | cons cv0 rest ih =>
    intro st a ha
    simp only [addAll] at ha
    split at ha
    · rcases ih st a ha with h | ⟨cv, hcv, hvin⟩
      · exact Or.inl h
      · exact Or.inr ⟨cv, List.mem_cons_of_mem _ hcv, hvin⟩
    · rcases ih _ a ha with h | ⟨cv, hcv, hvin⟩
      · rw [configureAccessory_mk] at h
        rcases List.mem_append.mp h with h1 | h2
        · exact Or.inl h1
        · refine Or.inr ⟨cv0, List.mem_cons_self _ _, ?_⟩
          rw [List.mem_singleton.mp h2]
          rfl
      · exact Or.inr ⟨cv, List.mem_cons_of_mem _ hcv, hvin⟩

/-- The add pass adds nothing and leaves the registry unchanged when
every desired uuid is already registered. -/
theorem addAll_noop (g : String → String) :
    ∀ (D : List ConfigVehicle) (st : PlatformState),
      (∀ cv ∈ D, ∃ a, a ∈ st.accessories ∧ a.UUID = g (toUpperCase cv.vin)) →
      (addAll g st D).2.1 = [] ∧ (addAll g st D).2.2 = st := by
  intro D
  induction D with
  | nil => intro st h; exact ⟨rfl, rfl⟩
  | cons cv rest ih =>
    intro st h
    have hfind : (st.accessories.find?
        (fun x => x.UUID == g (toUpperCase cv.vin))).isSome = true := by
      rw [List.find?_isSome]
      obtain ⟨a, ha, hu⟩ := h cv (List.mem_cons_self _ _)
      exact ⟨a, ha, beq_iff_eq.mpr hu⟩
    simp only [addAll, hfind, if_true]
    exact ih st (fun c hc => h c (List.mem_cons_of_mem _ hc))

/-! ## Claim theorems -/

/-- C7: for every lock current-state read, a fresh snapshot is fetched; a
failed fetch surfaces a read error; a successful fetch yields 1 exactly
when `lockStatus` is LOCKED and 0 otherwise, pushes that value into the
cached current-state characteristic, and returns the same value. -/
theorem lock_current_state_read (fetch : String → Option StatusSnapshot) (v : Vehicle) :
    ((lockRead fetch v).readError = (fetch v.vin).isNone) ∧
    (∀ s, fetch v.vin = some s →
      (lockRead fetch v).returned = some (if s.lockStatus = "LOCKED" then (1 : Int) else 0) ∧
      (lockRead fetch v).pushedCurrentState = (lockRead fetch v).returned) := by
  unfold lockRead lockGetHandler
  cases h : fetch v.vin with
  | none => simp
  | some s => simp

/-- Witness for C7 at a concrete LOCKED fetch. -/
theorem lock_current_state_read_witness :
    (lockRead (fun _ => some lockedSnap) vehLocked).returned =
      some (if lockedSnap.lockStatus = "LOCKED" then (1 : Int) else 0) ∧
    (lockRead (fun _ => some lockedSnap) vehLocked).pushedCurrentState =
      (lockRead (fun _ => some lockedSnap) vehLocked).returned :=
  (lock_current_state_read (fun _ => some lockedSnap) vehLocked).2 lockedSnap rfl

/-- C3 counterexample: the switch GET handler fetches a fresh snapshot
whose remote-start level is 3 (positive), yet returns false, because the
code reads the CACHED `vehicle.info` (here absent) instead of the fetch
result. The claim requires the read to return true here. -/
theorem switch_read_counterexample :
    (0 < ((runningFetch "VINA").bind StatusSnapshot.remoteStartStatus).getD 0) ∧
    switchRead runningFetch { name := "car", vin := "VINA", info := none } = some false := by
  constructor
  · decide
  · rfl

/-- C3 amended: for every switch read, the fresh fetch only gates the
read error — a failed fetch surfaces a read error, and a successful fetch
returns true exactly when the CACHED snapshot's remote-start level is
positive (the freshly fetched value is ignored). -/
theorem switch_read_uses_cache (fetch : String → Option StatusSnapshot) (v : Vehicle) :
    switchRead fetch v =
      if (fetch v.vin).isSome then some (engineProjection v.info) else none := by
  unfold switchRead switchGetHandler
  cases h : fetch v.vin with
  | none => simp
  | some s => simp

/-- C4 counterexample: on a lock write of 1 whose remote command fails,
the handler still acknowledges the write with no error and still advances
the lock current-state characteristic to the written value; the switch
write likewise acknowledges success. The claim requires a surfaced write
error and an unchanged current-state. -/
theorem write_failure_counterexample :
    failingIssue Command.LOCK = false ∧
    (lockSetHandler (CharValue.n 1) failingIssue).callbackError = false ∧
    (lockSetHandler (CharValue.n 1) failingIssue).newLockCurrentState = CharValue.n 1 ∧
    (switchSetHandler true failingIssue).callbackError = false := by
  refine ⟨rfl, rfl, rfl, rfl⟩

/-- C4 amended: lock and switch writes ignore the issued command's
outcome entirely — for every written value and every command oracle, the
callback reports success and the lock current-state characteristic is set
to the written value, whether or not the command completed. -/
theorem write_ignores_command_outcome (value : CharValue) (bvalue : Bool)
    (issue : Command → Bool) :
    (lockSetHandler value issue).callbackError = false ∧
    (lockSetHandler value issue).newLockCurrentState = value ∧
    (switchSetHandler bvalue issue).callbackError = false :=
  ⟨rfl, rfl, rfl⟩

/-- C10: the lock write issues UNLOCK exactly when the written value is
the number 0 (JavaScript strict equality), every other value — non-zero
or non-numeric — issues LOCK, and the current-state characteristic is then
set to the raw written value. -/
theorem lock_write_strict_zero (value : CharValue) (issue : Command → Bool) :
    ((lockSetHandler value issue).issued = Command.UNLOCK ↔ value = CharValue.n 0) ∧
    (value ≠ CharValue.n 0 → (lockSetHandler value issue).issued = Command.LOCK) ∧
    (lockSetHandler value issue).newLockCurrentState = value := by
  unfold lockSetHandler
  by_cases h : value = CharValue.n 0 <;> simp [h]

/-- Witness for C10: the boolean value false is not strictly equal to the
number 0, so it issues LOCK. -/
theorem lock_write_strict_zero_witness :
    (lockSetHandler (CharValue.b false) (fun _ => true)).issued = Command.LOCK :=
  (lock_write_strict_zero (CharValue.b false) (fun _ => true)).2.1 (by decide)

/-- C8: for every configuration missing (or JavaScript-falsy in) username,
password, or the vehicles list, the platform logs exactly one
configuration error, registers zero accessories, and starts neither the
session-refresh loop nor the status-poll loop — regardless of the uuid
generator, the fetch oracle, or whether authentication would succeed. -/
theorem incomplete_config_is_inert (g : String → String)
    (fetch : String → Option StatusSnapshot) (authOk : Bool) (c : PlatformConfig)
    (h : configIncomplete c = true) :
    (runPlatform g fetch authOk (some c)).errorsLogged = 1 ∧
    (runPlatform g fetch authOk (some c)).state.accessories = [] ∧
    (runPlatform g fetch authOk (some c)).sessionLoopStarted = false ∧
    (runPlatform g fetch authOk (some c)).pollLoopStarted = false := by
  unfold runPlatform platformConstructor
  simp [h, emptyState]

/-- Witness for C8: a config with no username. -/
theorem incomplete_config_is_inert_witness :
    configIncomplete { username := none, password := some "pw", vehicles := some [] } = true ∧
    (runPlatform id noFetch true
        (some { username := none, password := some "pw", vehicles := some [] })).errorsLogged = 1 ∧
    (runPlatform id noFetch true
        (some { username := none, password := some "pw", vehicles := some [] })).state.accessories = [] ∧
    (runPlatform id noFetch true
        (some { username := none, password := some "pw", vehicles := some [] })).sessionLoopStarted = false ∧
    (runPlatform id noFetch true
        (some { username := none, password := some "pw", vehicles := some [] })).pollLoopStarted = false :=
  ⟨by decide,
    incomplete_config_is_inert id noFetch true
      { username := none, password := some "pw", vehicles := some [] } (by decide)⟩

/-- C2: evaluating the reconciliation removal at a concrete state — one
registered accessory (vin VINA) with its vehicle handle, and an empty
desired list — the accessory is unregistered and removed from the
accessory collection, but the vehicle-handle collection is returned
UNCHANGED, because `this.vehicles.slice(index, 1)` is non-mutating. The
two registry collections therefore diverge, against the documented
invariant (which the spec itself records as a source defect). -/
theorem removal_leaves_stale_handle :
    (addVehicles id [] stOne).toRemove = [accLocked] ∧
    (addVehicles id [] stOne).state.accessories = [] ∧
    (addVehicles id [] stOne).state.vehicles = [vehLocked] := by
  simp [addVehicles, addAll, removeLoop, stOne]

/-- C1 counterexample: a pass over one vehicle with a cached LOCKED
snapshot whose fetch fails. The claim requires the cached snapshot to be
unchanged and the projection skipped; the code changes both — it
overwrites `vehicle.info` with the absent result and pushes the default
projection (lock 0, switch off) into the accessory. -/
theorem update_failure_counterexample :
    noFetch vehLocked.vin = none ∧
    (updateVehicles id noFetch stOne).vehicles.map Vehicle.info ≠
      stOne.vehicles.map Vehicle.info ∧
    (updateVehicles id noFetch stOne).accessories ≠ stOne.accessories := by
  refine ⟨rfl, by decide, by decide⟩

/-- C1 amended: in a status-update pass, every vehicle's cached snapshot
is replaced by its fetch result (so a failed fetch CLEARS the cache
rather than retaining it), and every accessory the pass touches receives
the projection of that same fetch result (a failed fetch pushes the
defaults lock 0 / switch off rather than being skipped); vehicles whose
fetch succeeds are projected from the fresh snapshot, and the pass is a
total function, so no exception propagates out of it. -/
theorem update_pass_stores_fetch (g : String → String)
    (fetch : String → Option StatusSnapshot) (st : PlatformState) :
    ((updateVehicles g fetch st).vehicles).map Vehicle.info =
      st.vehicles.map (fun v => fetch v.vin) ∧
    ∀ a ∈ (updateVehicles g fetch st).accessories,
      a ∈ st.accessories ∨ ∃ v, v ∈ st.vehicles ∧ a.UUID = g v.vin ∧
        a.lockCurrentState = CharValue.n (lockProjection (fetch v.vin)) ∧
        a.switchOn = CharValue.b (engineProjection (fetch v.vin)) := by
  constructor
  · exact updateVehiclesAux_fst g fetch st.vehicles st.accessories
  · intro a ha
    rcases mem_updateVehiclesAux g fetch st.vehicles st.accessories a ha with
      h | ⟨v, hv, h1, h2, _, h4⟩
    · exact Or.inl h
    · exact Or.inr ⟨v, hv, h1, h2, h4⟩

/-- Witness for C1's amended theorem: the failed-fetch pass on `stOne`
pushes the default projection onto the (touched) accessory. -/
theorem update_pass_stores_fetch_witness :
    (updateVehicles id noFetch stOne).vehicles.map Vehicle.info =
      stOne.vehicles.map (fun v => noFetch v.vin) ∧
    (clearedAcc ∈ stOne.accessories ∨ ∃ v, v ∈ stOne.vehicles ∧
      clearedAcc.UUID = id v.vin ∧
      clearedAcc.lockCurrentState = CharValue.n (lockProjection (noFetch v.vin)) ∧
      clearedAcc.switchOn = CharValue.b (engineProjection (noFetch v.vin))) :=
  ⟨(update_pass_stores_fetch id noFetch stOne).1,
   (update_pass_stores_fetch id noFetch stOne).2 clearedAcc (by decide)⟩

/-- C9: in a status-update pass, every accessory the pass touches has
BOTH its lock current-state and its lock target-state characteristics set
to the same projected lock value — 1 if the (just-stored) cached snapshot
is LOCKED, otherwise 0 — so a previously written user lock target is
overwritten by the poll. -/
theorem poll_overwrites_lock_target (g : String → String)
    (fetch : String → Option StatusSnapshot) (st : PlatformState) :
    ∀ a ∈ (updateVehicles g fetch st).accessories,
      a ∈ st.accessories ∨
      ∃ v, v ∈ st.vehicles ∧ a.UUID = g v.vin ∧
        a.lockTargetState = a.lockCurrentState ∧
        a.lockCurrentState = CharValue.n (lockProjection (fetch v.vin)) := by
  intro a ha
  rcases mem_updateVehiclesAux g fetch st.vehicles st.accessories a ha with
    h | ⟨v, hv, h1, h2, h3, _⟩
  · exact Or.inl h
  · exact Or.inr ⟨v, hv, h1, by rw [h2, h3], h2⟩

/-- Witness for C9: polling `stOne` with a LOCKED fetch leaves the
accessory with lock current-state = lock target-state = 1. -/
theorem poll_overwrites_lock_target_witness :
    polledAcc ∈ stOne.accessories ∨
    ∃ v, v ∈ stOne.vehicles ∧ polledAcc.UUID = id v.vin ∧
      polledAcc.lockTargetState = polledAcc.lockCurrentState ∧
      polledAcc.lockCurrentState = CharValue.n (lockProjection (lockedFetch v.vin)) :=
  poll_overwrites_lock_target id lockedFetch stOne polledAcc (by decide)

/-- C5: reconciliation is idempotent — for every desired vehicle list D
and every uuid generator, running `addVehicles` once from the empty
registry and then again with the unchanged desired list produces no
further additions and no further removals. -/
theorem reconcile_idempotent (g : String → String) (D : List ConfigVehicle) :
    (addVehicles g D (addVehicles g D emptyState).state).toAdd = [] ∧
    (addVehicles g D (addVehicles g D emptyState).state).toRemove = [] := by
  have hvins : ∀ a ∈ (addAll g emptyState D).2.2.accessories,
      ((D.map (fun cv => { cv with vin := toUpperCase cv.vin })).map
        (fun v => v.vin)).contains a.contextVin = true := by
    intro a ha
    rcases addAll_new_vins g D emptyState a ha with h | ⟨cv, hcv, hvin⟩
    · simp [emptyState] at h
    · have hmem : a.contextVin ∈
          (D.map fun cv => { cv with vin := toUpperCase cv.vin }).map (fun v => v.vin) := by
        rw [List.map_map, List.mem_map]
        exact ⟨cv, hcv, hvin.symm⟩
      simpa using hmem
  have hrem1 : removeLoop ((addAll g emptyState D).1.map (fun v => v.vin)) 0
      (addAll g emptyState D).2.2.accessories (addAll g emptyState D).2.2.vehicles =
      ((addAll g emptyState D).2.2.accessories, (addAll g emptyState D).2.2.vehicles, []) := by
    rw [addAll_fst]
    exact removeLoop_noop _ ((addAll g emptyState D).2.2.accessories.length) 0 _ _
      (by omega) hvins
  have hstate1 : (addVehicles g D emptyState).state = (addAll g emptyState D).2.2 := by
    simp [addVehicles, hrem1]
  set st1 := (addVehicles g D emptyState).state with hst1def
  have hcov : ∀ cv ∈ D, ∃ a, a ∈ st1.accessories ∧ a.UUID = g (toUpperCase cv.vin) := by
    rw [hstate1]
    exact addAll_covers g D emptyState
  have hnoop := addAll_noop g D st1 hcov
  constructor
  · simp only [addVehicles]
    exact hnoop.1
  · simp only [addVehicles]
    rw [hnoop.2, addAll_fst]
    have hrem2 : removeLoop
        ((D.map (fun cv => { cv with vin := toUpperCase cv.vin })).map (fun v => v.vin)) 0
        st1.accessories st1.vehicles = (st1.accessories, st1.vehicles, []) := by
      refine removeLoop_noop _ st1.accessories.length 0 _ _ (by omega) ?_
      rw [hstate1]
      exact hvins
    rw [hrem2]

/-- C6: accessory identity is the deterministic uuid of the upper-cased
vin — two config entries whose vins agree up to letter case get the same
identifier, and reconciling both from the empty registry registers a
single accessory. -/
theorem vin_case_insensitive (g : String → String) (e1 e2 : ConfigVehicle)
    (h : toUpperCase e1.vin = toUpperCase e2.vin) :
    g (toUpperCase e1.vin) = g (toUpperCase e2.vin) ∧
    (addVehicles g [e1, e2] emptyState).state.accessories.length = 1 := by
  refine ⟨by rw [h], ?_⟩
  have hb : (g (toUpperCase e1.vin) == g (toUpperCase e2.vin)) = true := by
    rw [h]
    exact beq_self_eq_true _
  have hadd : addAll g emptyState [e1, e2] =
      ([{ e1 with vin := toUpperCase e1.vin }, { e2 with vin := toUpperCase e2.vin }],
       [{ e1 with vin := toUpperCase e1.vin }],
       configureAccessory emptyState
         (mkAccessory e1.name (g (toUpperCase e1.vin)) (toUpperCase e1.vin))) := by
    simp [addAll, emptyState, configureAccessory, mkAccessory, List.find?, hb]
  simp only [addVehicles, hadd]
  rw [removeLoop_noop _ 1 0 _ _ (by simp [configureAccessory, emptyState]) ?_]
  · simp [configureAccessory, emptyState]
  · intro a ha
    simp [configureAccessory, emptyState, mkAccessory] at ha
    subst ha
    simp [List.contains]

/-- Witness for C6: "abc" and "ABC" differ only in case and reconcile to
one accessory. -/
theorem vin_case_insensitive_witness :
    id (toUpperCase "abc") = id (toUpperCase "ABC") ∧
    (addVehicles id [{ name := "car", vin := "abc" }, { name := "car2", vin := "ABC" }]
      emptyState).state.accessories.length = 1 :=
  vin_case_insensitive id { name := "car", vin := "abc" } { name := "car2", vin := "ABC" }
    (by decide)

end FordPass
